import Mathlib

/-!
Verification of the request-admission core and conversation-assembly
pipeline of the AIA shopping-assistant gateway (`src/app.py`).

The Python source is shallowly embedded: each method becomes a pure Lean
function, mutable object state becomes explicit state passing, wall-clock
time becomes an explicit rational parameter, and `try/except` failure
becomes explicit result values.
-/

namespace AIA

/-! ## Rate limiter (`RateLimiter`, app.py lines 45-69) -/

/-- One entry of the `self.limits` dict: `max_requests` and `window` seconds. -/
structure LimitConfig where
  max_requests : Nat
  window : ℚ
deriving DecidableEq

/-- `self.limits['user']` -/
def userLimit : LimitConfig := ⟨10, 60⟩

/-- `self.limits['admin']` -/
def adminLimit : LimitConfig := ⟨50, 60⟩

/-- The `self.limits` dict of `RateLimiter.__init__`. -/
def limitsDict : List (String × LimitConfig) := [("user", userLimit), ("admin", adminLimit)]

/-- Python `d.get(k)` on an association-list model of a dict. -/
def dictGet? {α : Type} (d : List (String × α)) (k : String) : Option α :=
  (d.find? (fun kv => kv.1 == k)).map (fun kv => kv.2)

/-- `self.limits.get(role, self.limits['user'])` -/
def limitsFor (role : String) : LimitConfig :=
  (dictGet? limitsDict role).getD userLimit

/-- `self.requests`, a `defaultdict(list)` mapping `user_id` to a list of
request timestamps.  Reading an absent key yields `[]`, as in Python. -/
def RLState : Type := String → List ℚ

/-- The fresh `defaultdict(list)` state of `RateLimiter.__init__`. -/
def emptyRL : RLState := fun _ => []

/-- Assignment `self.requests[user_id] = l`. -/
def rlUpdate (st : RLState) (user_id : String) (l : List ℚ) : RLState :=
  fun u => if u = user_id then l else st u

/-- The value returned by `is_allowed` (the `(allowed, limit_config)` pair)
together with the mutated `self.requests` state. -/
structure RLOut where
  allowed : Bool
  config : LimitConfig
  state : RLState

/-- `RateLimiter.is_allowed(self, user_id, role)` (app.py lines 53-69), with
`time.time()` passed in as `current_time` and the `self.requests` state made
explicit.  It prunes timestamps `t` with `current_time - t >= window`, then
either rejects (no append) or appends `current_time` and admits. -/
def is_allowed (st : RLState) (user_id role : String) (current_time : ℚ) : RLOut :=
  let limit_config := limitsFor role
  let pruned := (st user_id).filter (fun t => decide (current_time - t < limit_config.window))
  if pruned.length ≥ limit_config.max_requests then
    ⟨false, limit_config, rlUpdate st user_id pruned⟩
  else
    ⟨true, limit_config, rlUpdate st user_id (pruned ++ [current_time])⟩

/-- One call observed by the rate limiter: an identity plus the value of
`time.time()` at that call. -/
structure Call where
  uid : String
  role : String
  time : ℚ

/-- Run a sequence of `is_allowed` calls from a starting state, returning the
final state and the log of calls paired with the `allowed` result each
received. -/
def runRL (st : RLState) : List Call → RLState × List (Call × Bool)
  | [] => (st, [])
  | c :: cs =>
      let r := is_allowed st c.uid c.role c.time
      let rest := runRL r.state cs
      (rest.1, (c, r.allowed) :: rest.2)

/-- Timestamps of the calls in a log that were admitted for a given user id. -/
def admittedTimes (uid : String) (log : List (Call × Bool)) : List ℚ :=
  (log.filter (fun p => p.2 && (p.1.uid == uid))).map (fun p => p.1.time)

/-! ## Authentication gate (`require_auth`, app.py lines 77-126) -/

/-- Python truthiness of `request.headers.get(h)`: an absent header is `None`
(falsy) and a present header is a string, falsy exactly when empty.  This is
what `all([user_id, user_role, user_name])` tests. -/
def pyTruthy : Option String → Bool
  | none => false
  | some s => !(s == "")

/-- Outcome of the `decorated_function` wrapper: the three early-return JSON
error responses (401 / 400 / 429), or success with the identity attached to
the request context. -/
inductive AuthResult where
  | missingCredentials
  | invalidRole (provided : String)
  | rateLimited (config : LimitConfig)
  | ok (user_id role name : String)
deriving DecidableEq

/-- `require_auth`'s `decorated_function` (app.py lines 77-126), with the three
identity headers, the shared `rate_limiter` state and `time.time()` explicit.
Checks run in source order: header presence, then role membership, then the
rate limit. -/
def require_auth (hUid hRole hName : Option String) (st : RLState) (now : ℚ) :
    AuthResult × RLState :=
  if pyTruthy hUid && pyTruthy hRole && pyTruthy hName then
    let user_id := hUid.getD ""
    let user_role := hRole.getD ""
    let user_name := hName.getD ""
    if user_role == "user" || user_role == "admin" then
      let r := is_allowed st user_id user_role now
      if r.allowed then (.ok user_id user_role user_name, r.state)
      else (.rateLimited r.config, r.state)
    else (.invalidRole user_role, st)
  else (.missingCredentials, st)

/-! ## JSON values and Python dict/iteration helpers

The two mirrors parse `response.json()` payloads with `dict.get`, `str` and
`for` loops; these helpers model the relevant Python semantics on
JSON-decoded values. -/

/-- A JSON-decoded Python value (numbers restricted to the integers that occur
as ids and quantities in this data source). -/
inductive JVal where
  | jnull
  | jbool (b : Bool)
  | jnum (n : Int)
  | jstr (s : String)
  | jarr (items : List JVal)
  | jobj (fields : List (String × JVal))

/-- Python `d.get(k, dflt)` on a decoded JSON dict (association list, keys
unique as in a Python dict). -/
def pyDictGetD (fields : List (String × JVal)) (k : String) (dflt : JVal) : JVal :=
  ((fields.find? (fun kv => kv.1 == k)).map (fun kv => kv.2)).getD dflt

/-- Python `data.get(k, dflt)` when `data` may not be a dict: `none` models the
`AttributeError` raised on a non-dict value. -/
def jGetD (data : JVal) (k : String) (dflt : JVal) : Option JVal :=
  match data with
  | .jobj fields => some (pyDictGetD fields k dflt)
  | _ => none

/-- Python iteration `for x in v` over a decoded JSON value: arrays yield their
elements, strings their one-character substrings, dicts their keys; `None`,
booleans and numbers raise `TypeError` (modelled as `none`). -/
def pyIter : JVal → Option (List JVal)
  | .jarr l => some l
  | .jstr s => some (s.toList.map (fun c => .jstr (String.mk [c])))
  | .jobj l => some (l.map (fun kv => .jstr kv.1))
  | _ => none

/-- Python `str()` on the JSON-decoded scalars that occur as `user_id` values
in the cart data (None, booleans, integers, strings).  Containers are given a
fixed tag; they never occur as `user_id` values and no theorem below depends
on their rendering. -/
def pyStr : JVal → String
  | .jnull => "None"
  | .jbool true => "True"
  | .jbool false => "False"
  | .jnum n => toString n
  | .jstr s => s
  | .jarr _ => "[...]"
  | .jobj _ => "dict"

/-- Outcome of one `requests.get` + `raise_for_status` + `response.json()`
sequence: the three failure classes all raise before any cache mutation, and
success yields the decoded payload. -/
inductive FetchOutcome where
  | netError
  | httpError
  | decodeError
  | ok (payload : JVal)

/-! ## Product catalog mirror (`ProductCatalog`, app.py lines 132-181) -/

/-- One entry appended to `self.products` by `_load_products`; each field is
the raw `p.get(...)` value (`None` when absent). -/
structure Product where
  id : JVal
  name : JVal
  category : JVal
  description : JVal
  price : JVal
  stock : JVal
  image_url : JVal

/-- The dict literal appended for one item `p` in `_load_products`. -/
def mkProduct (p : List (String × JVal)) : Product :=
  ⟨pyDictGetD p "product_id" .jnull, pyDictGetD p "name" .jnull,
   pyDictGetD p "category" .jnull, pyDictGetD p "description" .jnull,
   pyDictGetD p "price" .jnull, pyDictGetD p "quantity" .jnull,
   pyDictGetD p "image_url" .jnull⟩

/-- The mutable fields of `ProductCatalog` touched by `_load_products`. -/
structure CatalogState where
  products : List Product
  last_updated : Option ℚ

/-- The `for p in data.get("items", [])` loop of `_load_products`, started from
an accumulator: a non-dict item raises `AttributeError` mid-loop, leaving the
partial list built so far (second component `false`). -/
def buildProducts : List JVal → List Product → List Product × Bool
  | [], acc => (acc, true)
  | p :: rest, acc =>
      match p with
      | .jobj fields => buildProducts rest (acc ++ [mkProduct fields])
      | _ => (acc, false)

/-- `ProductCatalog._load_products` (app.py lines 142-164), with the network
interaction abstracted into a `FetchOutcome` and `datetime.now()` as `now`.
Mirrors the source order: on a decoded payload, `self.products = []` runs
before `data.get("items", [])` is evaluated, so failures from that point on
leave the cache cleared or partially rebuilt while still returning `False`. -/
def load_products (fetch : FetchOutcome) (st : CatalogState) (now : ℚ) :
    CatalogState × Bool :=
  match fetch with
  | .ok data =>
      let cleared : CatalogState := { st with products := [] }
      match jGetD data "items" (.jarr []) with
      | none => (cleared, false)
      | some itemsVal =>
          match pyIter itemsVal with
          | none => (cleared, false)
          | some items =>
              let r := buildProducts items []
              if r.2 then ({ products := r.1, last_updated := some now }, true)
              else ({ cleared with products := r.1 }, false)
  | _ => (st, false)

/-- `ProductCatalog.get_all_products`. -/
def get_all_products (st : CatalogState) : List Product := st.products

/-! ## Shopping cart mirror (`ShoppingCart`, app.py lines 187-255) -/

/-- One dict appended to a per-user bucket by `_load_cart`. -/
structure CartItem where
  cart_item_id : JVal
  product_id : JVal
  name : JVal
  price : JVal
  quantity : JVal
  image_url : JVal

/-- The dict literal appended for one cart row `item` in `_load_cart`. -/
def mkCartItem (fields : List (String × JVal)) : CartItem :=
  ⟨pyDictGetD fields "cart_item_id" .jnull, pyDictGetD fields "product_id" .jnull,
   pyDictGetD fields "name" .jnull, pyDictGetD fields "price" .jnull,
   pyDictGetD fields "quantity" .jnull, pyDictGetD fields "image_url" .jnull⟩

/-- `self.cart_items`: a Python dict from user-id strings to item lists,
modelled as an association list in insertion order with unique keys. -/
abbrev CartBuckets : Type := List (String × List CartItem)

/-- `self.cart_items.get(k, [])`. -/
def bucketsGet (d : CartBuckets) (k : String) : List CartItem :=
  ((d.find? (fun kv => kv.1 == k)).map (fun kv => kv.2)).getD []

/-- `k in self.cart_items`. -/
def bucketsHas (d : CartBuckets) (k : String) : Bool :=
  d.any (fun kv => kv.1 == k)

/-- The body `if user_id not in self.cart_items: self.cart_items[user_id] = []`
followed by `self.cart_items[user_id].append(item)`. -/
def bucketsAppend (d : CartBuckets) (k : String) (v : CartItem) : CartBuckets :=
  if bucketsHas d k then
    d.map (fun kv => if kv.1 == k then (kv.1, kv.2 ++ [v]) else kv)
  else d ++ [(k, [v])]

/-- `user_id = str(item.get("user_id", "0"))`: the bucket key of one cart row. -/
def bucketKey (fields : List (String × JVal)) : String :=
  pyStr (pyDictGetD fields "user_id" (.jstr "0"))

/-- The `for item in data.get("items", [])` loop of `_load_cart`, from an
accumulator; a non-dict row raises mid-loop leaving the partial buckets. -/
def buildCart : List JVal → CartBuckets → CartBuckets × Bool
  | [], acc => (acc, true)
  | item :: rest, acc =>
      match item with
      | .jobj fields =>
          buildCart rest (bucketsAppend acc (bucketKey fields) (mkCartItem fields))
      | _ => (acc, false)

/-- The mutable fields of `ShoppingCart` touched by `_load_cart`. -/
structure CartState where
  cart_items : CartBuckets
  last_updated : Option ℚ

/-- `ShoppingCart._load_cart` (app.py lines 197-222), network interaction
abstracted as for the catalog.  `self.cart_items = {}` runs before the items
are read, with the same clobber-on-mid-parse-failure behavior. -/
def load_cart (fetch : FetchOutcome) (st : CartState) (now : ℚ) :
    CartState × Bool :=
  match fetch with
  | .ok data =>
      let cleared : CartState := { st with cart_items := [] }
      match jGetD data "items" (.jarr []) with
      | none => (cleared, false)
      | some itemsVal =>
          match pyIter itemsVal with
          | none => (cleared, false)
          | some items =>
              let r := buildCart items []
              if r.2 then ({ cart_items := r.1, last_updated := some now }, true)
              else ({ cleared with cart_items := r.1 }, false)
  | _ => (st, false)

/-- `ShoppingCart.get_user_cart(self, user_id)` for a string user id. -/
def get_user_cart (st : CartState) (user_id : String) : List CartItem :=
  bucketsGet st.cart_items user_id

/-! ## Chat request assembly (`ShoppingAssistant._build_chat_request`,
app.py lines 302-362) -/

/-- The OCI message role enum values used by `_build_chat_request`. -/
inductive OciRole where
  | system
  | user
  | assistant
deriving DecidableEq

/-- One `oci...models.Message` with a single `TextContent`. -/
structure OciMessage where
  role : OciRole
  text : String
deriving DecidableEq

/-- Python `str.upper()` (ASCII case mapping, which covers every role string
compared against below). -/
def pyUpper (s : String) : String := String.mk (s.toList.map Char.toUpper)

/-- Python `str.strip()`: remove leading and trailing whitespace. -/
def pyStrip (s : String) : String :=
  String.mk (((s.toList.dropWhile Char.isWhitespace).reverse.dropWhile Char.isWhitespace).reverse)

/-- One caller-supplied history entry `{"role": ..., "content": ...}`. -/
structure HistEntry where
  role : String
  content : String

/-- The loop body over `history` in `_build_chat_request`: uppercase the role,
map `USER` to the user role and `MODEL`/`ASSISTANT` to the assistant role, and
`continue` (drop) anything else. -/
def mapHistEntry (msg : HistEntry) : Option OciMessage :=
  let role_str := pyUpper msg.role
  if role_str == "USER" then some ⟨.user, msg.content⟩
  else if role_str == "MODEL" || role_str == "ASSISTANT" then some ⟨.assistant, msg.content⟩
  else none

/-- The `messages` list built by `_build_chat_request` (app.py lines 302-350):
the system message built by `_build_system_prompt` (passed here as the opaque
string it returns), the mapped history, then the current user message. -/
def build_chat_request (systemPrompt user_message : String)
    (history : List HistEntry) : List OciMessage :=
  ⟨.system, systemPrompt⟩ :: (history.filterMap mapHistEntry ++ [⟨.user, user_message⟩])

/-! ## Response-text extraction (`ShoppingAssistant._extract_response_text`,
app.py lines 373-403) -/

/-- A `TextContent` of the inference response. -/
structure RTextContent where
  text : String

/-- A response `message` holding a content list. -/
structure RMessage where
  content : List RTextContent

/-- One entry of a response `choices` list. -/
structure RChoice where
  message : RMessage

/-- A nested `chat_response` attribute value. -/
structure RChatResponse where
  choices : List RChoice

/-- The `chat_response.data` object: which attributes `hasattr` finds, the
outcome of `json.loads(str(data))` (`none` when that raises), and `str(data)`
itself. -/
structure RespData where
  chat_response : Option RChatResponse
  choices : Option (List RChoice)
  decoded : Option JVal
  rawStr : String

/-- Result of the extractor: a returned string, or an uncaught Python
exception escaping `_extract_response_text`. -/
inductive ExtractResult where
  | ok (s : String)
  | raised
deriving DecidableEq

/-- The shared attribute path `choices[0].message.content[0].text.strip()`,
whose list indexing raises `IndexError` on an empty list. -/
def extractShape (choices : List RChoice) : ExtractResult :=
  match choices with
  | [] => .raised
  | c :: _ =>
      match c.message.content with
      | [] => .raised
      | t :: _ => .ok (pyStrip t.text)

/-- Python `payload[k]` subscription on a decoded JSON value (`KeyError` /
`TypeError` as `none`). -/
def jIdxKey : JVal → String → Option JVal
  | .jobj fields, k => (fields.find? (fun kv => kv.1 == k)).map (fun kv => kv.2)
  | _, _ => none

/-- Python `payload[i]` subscription for a numeric index (`IndexError` /
`TypeError` as `none`). -/
def jIdxNat : JVal → Nat → Option JVal
  | .jarr l, n => l.get? n
  | _, _ => none

/-- The `try` block over `json.loads(str(data))`:
`payload["chat_response"]["choices"][0]["message"]["content"][0]["text"].strip()`,
`none` on any of the exceptions the `except` clause absorbs. -/
def tryDecodedPath (j : JVal) : Option String := do
  let a ← jIdxKey j "chat_response"
  let b ← jIdxKey a "choices"
  let c ← jIdxNat b 0
  let d ← jIdxKey c "message"
  let e ← jIdxKey d "content"
  let f ← jIdxNat e 0
  let g ← jIdxKey f "text"
  match g with
  | .jstr s => some (pyStrip s)
  | _ => none

/-- `ShoppingAssistant._extract_response_text` (app.py lines 373-403).  The
first two shapes are selected by `hasattr` and run outside any `try`, so a
malformed nested structure there raises; only the final JSON-reparse stage is
wrapped in `try/except` with `str(data)` as fallback. -/
def extract_response_text (data : RespData) : ExtractResult :=
  match data.chat_response with
  | some cr => extractShape cr.choices
  | none =>
      match data.choices with
      | some cs => extractShape cs
      | none =>
          match data.decoded with
          | some j =>
              match tryDecodedPath j with
              | some s => .ok s
              | none => .ok data.rawStr
          | none => .ok data.rawStr

/-! ## Latency measurement (`ShoppingAssistant.get_response`, app.py
lines 411-429)

The wall clock is modelled explicitly: each blocking step of `get_response`
takes some duration, and the clock reads taken by the source (`start =
time.time()` after `refresh_data()`, `elapsed = time.time() - start` right
after `self.client.chat(...)`) are reproduced on that timeline.  The debug
prints between the reads are absorbed into the adjacent step durations. -/

/-- Durations of the five steps of one `get_response` call, in source order:
`refresh_data()`, `_build_chat_request(...)`, `_build_chat_detail(...)`,
`self.client.chat(...)`, `_extract_response_text(...)`. -/
structure StepDurations where
  refreshData : ℚ
  buildRequest : ℚ
  buildDetail : ℚ
  chatCall : ℚ
  extractText : ℚ

/-- The `elapsed` value returned by `get_response` when the call starts at
clock value `t0` and the steps take the given durations. -/
def get_response_elapsed (t0 : ℚ) (d : StepDurations) : ℚ :=
  let t1 := t0 + d.refreshData
  let start := t1
  let t2 := t1 + d.buildRequest
  let t3 := t2 + d.buildDetail
  let t4 := t3 + d.chatCall
  t4 - start

/-- A sample product used as the preexisting cache content in concrete
counterexamples below. -/
def demoProduct : Product := mkProduct [("product_id", .jnum 1), ("name", .jstr "Pen")]

/-! # Helper lemmas -/

/-- Every policy in the `limits` dict (and hence the default) has a 60-second
window, so the pruning predicate does not depend on the role. -/
theorem window_eq_60 (role : String) : (limitsFor role).window = 60 := by
  by_cases h1 : role = "user"
  · simp [limitsFor, dictGet?, limitsDict, h1, userLimit]
  · by_cases h2 : role = "admin"
    · simp [limitsFor, dictGet?, limitsDict, Ne.symm h1, h2, adminLimit]
    · simp [limitsFor, dictGet?, limitsDict, Ne.symm h1, Ne.symm h2, userLimit]

/-- `is_allowed` only writes the bucket of the user id it was called with. -/
theorem is_allowed_state_ne (st : RLState) (uid u role : String) (now : ℚ)
    (h : u ≠ uid) : (is_allowed st uid role now).state u = st u := by
  simp only [is_allowed]
  split <;> simp [rlUpdate, h]

theorem runRL_append (st : RLState) (as bs : List Call) :
    runRL st (as ++ bs)
      = ((runRL (runRL st as).1 bs).1,
         (runRL st as).2 ++ (runRL (runRL st as).1 bs).2) := by
  induction as generalizing st with
  | nil => simp [runRL]
  | cons c cs ih => simp [runRL, ih]

theorem admittedTimes_append (uid : String) (l1 l2 : List (Call × Bool)) :
    admittedTimes uid (l1 ++ l2) = admittedTimes uid l1 ++ admittedTimes uid l2 := by
  simp [admittedTimes, List.filter_append]

/-- Re-filtering with a later deadline subsumes an earlier pruning: a
timestamp inside the window of a later `now` was inside the window of any
earlier pruning time. -/
theorem filter_window_mono (l : List ℚ) (a b : ℚ) (hab : a ≤ b) :
    (l.filter (fun t => decide (a - t < 60))).filter (fun t => decide (b - t < 60))
      = l.filter (fun t => decide (b - t < 60)) := by
  rw [List.filter_filter]
  apply List.filter_congr
  intro t _
  by_cases h : b - t < 60
  · have h2 : a - t < 60 := by linarith
    simp [h, h2]
  · simp [h]

/-- Invariant of the rate limiter: viewed through any window deadline `now`
at or after every call processed so far, the stored timestamp list of a user
id coincides with the timestamps of the calls that were actually admitted
for that user id. -/
theorem runRL_filter_eq :
    ∀ (cs : List Call) (uid : String) (now : ℚ), (∀ c ∈ cs, c.time ≤ now) →
      ((runRL emptyRL cs).1 uid).filter (fun t => decide (now - t < 60))
        = (admittedTimes uid (runRL emptyRL cs).2).filter
            (fun t => decide (now - t < 60)) := by
  intro cs
  induction cs using List.reverseRecOn with
  | nil => intro uid now _; simp [runRL, emptyRL, admittedTimes]
  | append_singleton as c ih =>
    intro uid now hle
    have hc_now : c.time ≤ now := hle c (by simp)
    have hle_as : ∀ x ∈ as, x.time ≤ now := fun x hx => hle x (by simp [hx])
    rw [runRL_append, admittedTimes_append]
    simp only [runRL]
    by_cases huid : uid = c.uid
    · subst huid
      simp only [is_allowed, window_eq_60]
      by_cases hfull :
          (List.filter (fun t => decide (c.time - t < 60)) ((runRL emptyRL as).1 c.uid)).length
            ≥ (limitsFor c.role).max_requests
      · rw [if_pos hfull]
        simp only [rlUpdate, eq_self_iff_true, if_true]
        rw [filter_window_mono _ _ _ hc_now, ih c.uid now hle_as]
        simp [admittedTimes]
      · rw [if_neg hfull]
        simp only [rlUpdate, eq_self_iff_true, if_true]
        rw [List.filter_append, filter_window_mono _ _ _ hc_now, ih c.uid now hle_as]
        simp [admittedTimes]
    · rw [is_allowed_state_ne _ _ _ _ _ huid, ih uid now hle_as]
      have h2 : admittedTimes uid
            [(c, (is_allowed (runRL emptyRL as).1 c.uid c.role c.time).allowed)] = [] := by
        simp [admittedTimes, Ne.symm huid]
      rw [h2]
      simp

/-- The guard of `is_allowed`: the call admits exactly when the pruned shared
timestamp list is still below the max of the policy chosen by the role. -/
theorem is_allowed_allowed_iff (st : RLState) (uid role : String) (now : ℚ) :
    (is_allowed st uid role now).allowed = true
      ↔ ((st uid).filter (fun t => decide (now - t < 60))).length
          < (limitsFor role).max_requests := by
  simp only [is_allowed, window_eq_60]
  split
  · rename_i h; simp [Nat.not_lt.mpr h]
  · rename_i h; simp [Nat.lt_of_not_le h]

/-- On an admitting call the stored list becomes the pruned list plus the
current time. -/
theorem is_allowed_state_self_of_allowed (st : RLState) (uid role : String) (now : ℚ)
    (h : (is_allowed st uid role now).allowed = true) :
    (is_allowed st uid role now).state uid
      = (st uid).filter (fun t => decide (now - t < 60)) ++ [now] := by
  simp only [is_allowed, window_eq_60] at h ⊢
  split at h
  · exact absurd h (by simp)
  · rename_i hcond
    rw [if_neg hcond]
    simp [rlUpdate]

/-! # Claim theorems -/

/-- C1: whenever `is_allowed` admits a call for `uid` under `role` after any
monotone sequence of prior calls, strictly fewer than the policy max of
previously admitted calls for that user id lie within the trailing window at
that moment, so no trailing `window` period ever contains more than
`max_requests` admitted calls. -/
theorem rate_limiter_sliding_window_bound (pre : List Call) (uid role : String) (now : ℚ)
    (_hsorted : List.Pairwise (fun a b : Call => a.time ≤ b.time) pre)
    (hle : ∀ c ∈ pre, c.time ≤ now)
    (hallow : (is_allowed (runRL emptyRL pre).1 uid role now).allowed = true) :
    ((admittedTimes uid (runRL emptyRL pre).2).filter
        (fun t => decide (now - t < (limitsFor role).window))).length
      < (limitsFor role).max_requests := by
  rw [window_eq_60, ← runRL_filter_eq pre uid now hle]
  exact (is_allowed_allowed_iff _ _ _ _).mp hallow

/-- Witness for C1: a concrete one-call history followed by an admitted call. -/
theorem rate_limiter_sliding_window_bound_witness :
    ((admittedTimes "u" (runRL emptyRL [⟨"u", "user", 0⟩]).2).filter
        (fun t => decide ((1 : ℚ) - t < (limitsFor "user").window))).length
      < (limitsFor "user").max_requests :=
  rate_limiter_sliding_window_bound [⟨"u", "user", 0⟩] "u" "user" 1
    (by simp)
    (by intro c hc; rw [List.mem_singleton] at hc; subst hc; norm_num)
    (by norm_num [is_allowed, runRL, emptyRL, rlUpdate, limitsFor, dictGet?, limitsDict,
          userLimit, List.filter])

/-- C2: `require_auth` validates in source order (header presence, then role
membership, then rate limit), and a request rejected for missing headers or an
unrecognized role leaves the rate-limiter state exactly as it was. -/
theorem auth_reject_consumes_no_slot (hU hR hN : Option String) (st : RLState) (now : ℚ)
    (hrej : (require_auth hU hR hN st now).1 = AuthResult.missingCredentials
          ∨ (require_auth hU hR hN st now).1 = AuthResult.invalidRole (hR.getD "")) :
    (require_auth hU hR hN st now).2 = st
    ∧ ((pyTruthy hU && pyTruthy hR && pyTruthy hN) = false →
        require_auth hU hR hN st now = (AuthResult.missingCredentials, st))
    ∧ ((pyTruthy hU && pyTruthy hR && pyTruthy hN) = true →
        ((hR.getD "" == "user") || (hR.getD "" == "admin")) = false →
        require_auth hU hR hN st now = (AuthResult.invalidRole (hR.getD ""), st)) := by
  simp only [require_auth] at hrej ⊢
  split_ifs at hrej ⊢ <;> simp_all

/-- Witness for C2: a request with no user-id header is rejected without
touching the limiter state. -/
theorem auth_reject_consumes_no_slot_witness :
    (require_auth none (some "user") (some "John") emptyRL 0).2 = emptyRL :=
  (auth_reject_consumes_no_slot none (some "user") (some "John") emptyRL 0
    (Or.inl (by decide))).1

/-- C4: each `is_allowed` call returns the policy looked up for the role
(defaulting to the user policy for unrecognized roles), replaces the user id
bucket by the pruned timestamp list with the current time appended exactly
when it admits, touches no other bucket, and admits exactly when the pruned
count is below the policy max; the function is total, so the call never
fails. -/
theorem is_allowed_step_characterization (st : RLState) (uid role : String) (now : ℚ) :
    (is_allowed st uid role now).config = limitsFor role
    ∧ (role ≠ "user" ∧ role ≠ "admin" → limitsFor role = userLimit)
    ∧ ((is_allowed st uid role now).state uid
        = (if (is_allowed st uid role now).allowed
            then ((st uid).filter (fun t => decide (now - t < (limitsFor role).window))) ++ [now]
            else (st uid).filter (fun t => decide (now - t < (limitsFor role).window))))
    ∧ (∀ u, u ≠ uid → (is_allowed st uid role now).state u = st u)
    ∧ ((is_allowed st uid role now).allowed = true
        ↔ ((st uid).filter (fun t => decide (now - t < (limitsFor role).window))).length
            < (limitsFor role).max_requests) := by
  refine ⟨?_, ?_, ?_, ?_, ?_⟩
  · simp only [is_allowed]
    split <;> rfl
  · rintro ⟨h1, h2⟩
    simp [limitsFor, dictGet?, limitsDict, Ne.symm h1, Ne.symm h2]
  · simp only [is_allowed]
    split <;> simp [rlUpdate]
  · intro u hu
    exact is_allowed_state_ne st uid u role now hu
  · rw [window_eq_60]
    exact is_allowed_allowed_iff st uid role now

/-- Witness for C4: an unrecognized role gets the user policy on a concrete
call. -/
theorem is_allowed_step_characterization_witness :
    limitsFor "guest" = userLimit
    ∧ (is_allowed emptyRL "u" "guest" 0).config = limitsFor "guest" :=
  ⟨(is_allowed_step_characterization emptyRL "u" "guest" 0).2.1 ⟨by decide, by decide⟩,
   (is_allowed_step_characterization emptyRL "u" "guest" 0).1⟩

/-- C9: the timestamp record is keyed by user id alone.  The admission test
for any role counts the same shared per-user list (every policy has the same
60-second window, so even the pruning is role-independent), the role only
selects which `max_requests` that count is compared against, and a call
admitted under one role increments the count a subsequent check under any
other role sees for that user id. -/
theorem rate_limiter_keyed_by_user_id (st : RLState) (uid : String) (now : ℚ)
    (r1 r2 : String) :
    ((is_allowed st uid r1 now).allowed = true
      ↔ ((st uid).filter (fun t => decide (now - t < 60))).length
          < (limitsFor r1).max_requests)
    ∧ (limitsFor r1).window = (limitsFor r2).window
    ∧ ((is_allowed st uid r1 now).allowed = true →
        ((is_allowed (is_allowed st uid r1 now).state uid r2 now).allowed = true
          ↔ ((st uid).filter (fun t => decide (now - t < 60))).length + 1
              < (limitsFor r2).max_requests)) := by
  refine ⟨is_allowed_allowed_iff st uid r1 now, by rw [window_eq_60, window_eq_60], ?_⟩
  intro h1
  rw [is_allowed_allowed_iff, is_allowed_state_self_of_allowed st uid r1 now h1,
      List.filter_append, filter_window_mono _ _ _ le_rfl]
  have hnow : decide (now - now < (60 : ℚ)) = true := by simp
  simp [List.filter, hnow]

/-- Witness for C9: an admit under role user is counted by a following check
under role admin for the same user id. -/
theorem rate_limiter_keyed_by_user_id_witness :
    (is_allowed (is_allowed emptyRL "u" "user" 0).state "u" "admin" 0).allowed = true
      ↔ ((emptyRL "u").filter (fun t => decide ((0 : ℚ) - t < 60))).length + 1
          < (limitsFor "admin").max_requests :=
  (rate_limiter_keyed_by_user_id emptyRL "u" 0 "user" "admin").2.2 (by decide)

/-- C10: an identity header that is present but empty is treated exactly like
an absent header: the request is rejected with the missing-credentials 401
response, the rate-limiter state is untouched, and the outcome is identical
to the outcome with the header absent. -/
theorem empty_header_is_missing (hU hR hN : Option String) (st : RLState) (now : ℚ) :
    require_auth (some "") hR hN st now = (AuthResult.missingCredentials, st)
    ∧ require_auth hU (some "") hN st now = (AuthResult.missingCredentials, st)
    ∧ require_auth hU hR (some "") st now = (AuthResult.missingCredentials, st)
    ∧ require_auth (some "") hR hN st now = require_auth none hR hN st now
    ∧ require_auth hU (some "") hN st now = require_auth hU none hN st now
    ∧ require_auth hU hR (some "") st now = require_auth hU hR none st now := by
  simp [require_auth, pyTruthy]

/-- The history mapping of `_build_chat_request`, rewritten with
propositional conditions on the uppercased role (the form the amended claim
uses). -/
theorem mapHistEntry_eq_spec (e : HistEntry) :
    mapHistEntry e
      = (if pyUpper e.role = "USER" then some ⟨OciRole.user, e.content⟩
         else if pyUpper e.role = "MODEL" ∨ pyUpper e.role = "ASSISTANT" then
           some ⟨OciRole.assistant, e.content⟩
         else none) := by
  simp only [mapHistEntry]
  by_cases h1 : pyUpper e.role = "USER"
  · simp [h1]
  · by_cases h2 : pyUpper e.role = "MODEL"
    · simp [h1, h2]
    · by_cases h3 : pyUpper e.role = "ASSISTANT"
      · simp [h1, h2, h3]
      · simp [h1, h2, h3]

/-- No history entry ever maps to a system-role message. -/
theorem mapHistEntry_not_system (e : HistEntry) (m : OciMessage)
    (h : mapHistEntry e = some m) : m.role ≠ OciRole.system := by
  simp only [mapHistEntry] at h
  split_ifs at h <;> simp_all <;> subst h <;> simp

/-- C3 counterexample: a history entry whose role is `"USER"` is not one of
the literal roles `"user"`, `"model"`, `"assistant"`, yet it is mapped into
the message sequence instead of being dropped. -/
theorem history_role_case_counterexample :
    build_chat_request "SYS" "hi" [⟨"USER", "earlier"⟩]
      = [⟨.system, "SYS"⟩, ⟨.user, "earlier"⟩, ⟨.user, "hi"⟩]
    ∧ ("USER" ≠ "user" ∧ "USER" ≠ "model" ∧ "USER" ≠ "assistant") :=
  ⟨by decide, by decide⟩

/-- C3 amended: the built sequence is exactly one system message carrying
the system prompt, then the history entries in input order mapped
case-insensitively (uppercased role `USER` to the user role, `MODEL` or
`ASSISTANT` to the assistant role, anything else silently dropped), then
exactly one trailing user message carrying the input verbatim; no history
entry contributes a system message, so the system message is unique, and the
sequence ends with the trailing user message. -/
theorem build_chat_request_structure (systemPrompt user_message : String)
    (history : List HistEntry) :
    build_chat_request systemPrompt user_message history
      = ⟨OciRole.system, systemPrompt⟩ ::
          (history.filterMap (fun e =>
              if pyUpper e.role = "USER" then some ⟨OciRole.user, e.content⟩
              else if pyUpper e.role = "MODEL" ∨ pyUpper e.role = "ASSISTANT" then
                some ⟨OciRole.assistant, e.content⟩
              else none)
            ++ [⟨OciRole.user, user_message⟩])
    ∧ ((build_chat_request systemPrompt user_message history).filter
          (fun m => m.role == OciRole.system)).length = 1
    ∧ (build_chat_request systemPrompt user_message history).getLast?
        = some ⟨OciRole.user, user_message⟩
    ∧ (build_chat_request systemPrompt user_message history).head?
        = some ⟨OciRole.system, systemPrompt⟩ := by
  have hmid : (history.filterMap mapHistEntry).filter
      (fun m => m.role == OciRole.system) = [] := by
    rw [List.filter_eq_nil_iff]
    intro m hm
    obtain ⟨e, _, he⟩ := List.mem_filterMap.mp hm
    simp [mapHistEntry_not_system e m he]
  refine ⟨?_, ?_, ?_, ?_⟩
  · simp only [build_chat_request]
    rw [List.filterMap_congr (fun e _ => mapHistEntry_eq_spec e)]
  · simp [build_chat_request, List.filter_append, hmid]
  · simp only [build_chat_request]
    rw [← List.cons_append, List.getLast?_concat]
  · simp [build_chat_request]

/-- C5 counterexample: a response body that decodes to a JSON array (rather
than an object) makes the refresh fail, yet the previously cached product
list has been cleared rather than left untouched. -/
theorem mirror_refresh_failure_counterexample :
    (load_products (.ok (.jarr [])) ⟨[demoProduct], some 0⟩ 5).2 = false
    ∧ (load_products (.ok (.jarr [])) ⟨[demoProduct], some 0⟩ 5).1.products = []
    ∧ ([demoProduct] : List Product) ≠ [] :=
  ⟨rfl, rfl, by simp⟩

/-- C5 amended: a refresh failing before the response body is successfully
decoded (network error, HTTP error status, JSON decode failure) returns false
and leaves the cached data of either mirror untouched; a failure while
converting an already-decoded payload still returns false but may leave the
cache cleared or partially rebuilt. -/
theorem mirror_prefetch_failure_preserves_cache (f : FetchOutcome)
    (stp : CatalogState) (stc : CartState) (now : ℚ)
    (hf : f = .netError ∨ f = .httpError ∨ f = .decodeError) :
    load_products f stp now = (stp, false) ∧ load_cart f stc now = (stc, false) := by
  rcases hf with rfl | rfl | rfl <;> exact ⟨rfl, rfl⟩

/-- Witness for C5 amended: a network failure with a concrete populated
cache. -/
theorem mirror_prefetch_failure_preserves_cache_witness :
    load_products .netError ⟨[demoProduct], some 0⟩ 5 = (⟨[demoProduct], some 0⟩, false)
    ∧ load_cart .netError ⟨[], none⟩ 5 = (⟨[], none⟩, false) :=
  mirror_prefetch_failure_preserves_cache .netError ⟨[demoProduct], some 0⟩ ⟨[], none⟩ 5
    (Or.inl rfl)

/-- C7 counterexample: a payload whose `chat_response` attribute is present
but has an empty `choices` list makes the extractor raise, even though the
very same payload also carries a flat `choices` attribute from which the
second shape would extract successfully — the shapes are committed to by
attribute presence, not tried in fallback order, and the extractor can
raise. -/
theorem extractor_shape_commit_counterexample :
    extract_response_text ⟨some ⟨[]⟩, some [⟨⟨[⟨" hi "⟩]⟩⟩], none, "raw"⟩ = .raised
    ∧ extract_response_text ⟨none, some [⟨⟨[⟨" hi "⟩]⟩⟩], none, "raw"⟩ = .ok "hi" :=
  ⟨rfl, by decide⟩

/-- C7 amended: the extractor dispatches on attribute presence.  With a
`chat_response` attribute it extracts the nested path, returning the
whitespace-stripped text when the structure is well formed and raising when
it is malformed (no fall-through to the next shape); without it but with a
`choices` attribute it does the same on the flat path; with neither attribute
it parses the stringified payload and never raises, falling back to the raw
stringified payload. -/
theorem extractor_dispatch_characterization (d : RespData) :
    (∀ cr c t rest rest2, d.chat_response = some cr → cr.choices = c :: rest →
        c.message.content = t :: rest2 →
        extract_response_text d = .ok (pyStrip t.text))
    ∧ (∀ cr, d.chat_response = some cr → cr.choices = [] →
        extract_response_text d = .raised)
    ∧ (d.chat_response = none → ∀ c t rest rest2, d.choices = some (c :: rest) →
        c.message.content = t :: rest2 →
        extract_response_text d = .ok (pyStrip t.text))
    ∧ (d.chat_response = none → d.choices = none →
        ∃ s, extract_response_text d = .ok s)
    ∧ (d.chat_response = none → d.choices = none → d.decoded = none →
        extract_response_text d = .ok d.rawStr) := by
  obtain ⟨ocr, och, odec, raw⟩ := d
  refine ⟨?_, ?_, ?_, ?_, ?_⟩
  · rintro cr c t rest rest2 rfl hch hco
    simp [extract_response_text, extractShape, hch, hco]
  · rintro cr rfl hch
    simp [extract_response_text, extractShape, hch]
  · rintro rfl c t rest rest2 rfl hco
    simp [extract_response_text, extractShape, hco]
  · rintro rfl rfl
    cases odec with
    | none => exact ⟨raw, rfl⟩
    | some j =>
        cases htry : tryDecodedPath j with
        | none => exact ⟨raw, by simp [extract_response_text, htry]⟩
        | some str => exact ⟨str, by simp [extract_response_text, htry]⟩
  · rintro rfl rfl rfl
    rfl

/-- Witness for C7 amended: with neither attribute and an undecodable
payload, the raw string comes back. -/
theorem extractor_dispatch_characterization_witness :
    extract_response_text ⟨none, none, none, "plain"⟩ = .ok "plain" :=
  (extractor_dispatch_characterization ⟨none, none, none, "plain"⟩).2.2.2.2 rfl rfl rfl

/-- C8 counterexample: with a prompt-assembly step taking 5 seconds and an
LLM call taking 1 second, the returned elapsed value is 6, not the 1 second
spent around the LLM call alone. -/
theorem elapsed_includes_assembly_counterexample :
    get_response_elapsed 0 ⟨0, 5, 0, 1, 0⟩ = 6
    ∧ (⟨0, 5, 0, 1, 0⟩ : StepDurations).chatCall = 1
    ∧ (6 : ℚ) ≠ 1 := by
  refine ⟨by norm_num [get_response_elapsed], rfl, by norm_num⟩

/-- C8 amended: the elapsed value measures from just before prompt assembly
to just after the LLM call — it includes building the chat request and chat
details and the LLM call itself, and excludes the mirror refreshes and the
response-text extraction. -/
theorem elapsed_measures_build_and_chat (t0 : ℚ) (d : StepDurations) :
    get_response_elapsed t0 d = d.buildRequest + d.buildDetail + d.chatCall := by
  simp only [get_response_elapsed]
  ring

/-- Appending into an existing bucket extends exactly that bucket. -/
theorem bucketsGet_map_append (d : CartBuckets) (k : String) (v : CartItem)
    (hhas : bucketsHas d k = true) :
    bucketsGet (d.map (fun kv => if kv.1 == k then (kv.1, kv.2 ++ [v]) else kv)) k
      = bucketsGet d k ++ [v] := by
  induction d with
  | nil => simp [bucketsHas] at hhas
  | cons kv d ih =>
    by_cases hk : (kv.1 == k) = true
    · simp [bucketsGet, List.find?, hk]
    · have hhas2 : bucketsHas d k = true := by
        simp only [bucketsHas, List.any_cons, hk, Bool.false_or] at hhas
        exact hhas
      simp only [List.map_cons, bucketsGet, List.find?, hk, if_neg, Bool.false_eq_true,
        if_false] at ih ⊢
      exact ih hhas2

/-- Appending into the bucket of `k` leaves every other bucket unchanged. -/
theorem bucketsGet_map_ne (d : CartBuckets) (k kp : String) (v : CartItem)
    (hne : kp ≠ k) :
    bucketsGet (d.map (fun kv => if kv.1 == k then (kv.1, kv.2 ++ [v]) else kv)) kp
      = bucketsGet d kp := by
  induction d with
  | nil => rfl
  | cons kv d ih =>
    by_cases hk1 : (kv.1 == kp) = true
    · have hk2 : (kv.1 == k) = false := by
        have : kv.1 = kp := by simpa using hk1
        simp [this, hne]
      simp [bucketsGet, List.find?, hk1, hk2]
    · by_cases hk2 : (kv.1 == k) = true
      · simp only [List.map_cons, bucketsGet, List.find?, hk1, hk2, if_true] at ih ⊢
        simpa [hk1] using ih
      · simp only [List.map_cons, bucketsGet, List.find?, hk1, hk2, Bool.false_eq_true,
          if_false] at ih ⊢
        exact ih

/-- Reading any key after the append of `_load_cart`: the bucket of the item
key gains the item at its end, every other bucket is unchanged. -/
theorem bucketsGet_bucketsAppend (d : CartBuckets) (k kp : String) (v : CartItem) :
    bucketsGet (bucketsAppend d k v) kp
      = if kp = k then bucketsGet d k ++ [v] else bucketsGet d kp := by
  unfold bucketsAppend
  by_cases hhas : bucketsHas d k = true
  · rw [if_pos hhas]
    by_cases hk : kp = k
    · subst hk
      rw [if_pos rfl]
      exact bucketsGet_map_append d kp v hhas
    · rw [if_neg hk]
      exact bucketsGet_map_ne d k kp v hk
  · rw [if_neg hhas]
    by_cases hk : kp = k
    · subst hk
      have h1 : d.find? (fun kv => kv.1 == kp) = none := by
        rw [List.find?_eq_none]
        intro kv hkv hcon
        exact hhas (List.any_eq_true.mpr ⟨kv, hkv, hcon⟩)
      rw [if_pos rfl]
      simp [bucketsGet, List.find?_append, h1, List.find?]
    · rw [if_neg hk]
      have h2 : ((k, [v]).1 == kp) = false := by simp [Ne.symm hk]
      simp only [bucketsGet, List.find?_append, List.find?, h2]
      cases d.find? (fun kv => kv.1 == kp) <;> simp

/-- The grouping loop of `_load_cart` over well-formed (dict) rows: it always
succeeds, and each bucket collects exactly the rows whose key is that bucket,
in input order. -/
theorem buildCart_jobj_get (items : List (List (String × JVal))) (acc : CartBuckets)
    (k : String) :
    (buildCart (items.map JVal.jobj) acc).2 = true
    ∧ bucketsGet (buildCart (items.map JVal.jobj) acc).1 k
      = bucketsGet acc k
        ++ (items.filter (fun fields => bucketKey fields == k)).map mkCartItem := by
  induction items generalizing acc with
  | nil => simp [buildCart]
  | cons fields rest ih =>
    simp only [List.map_cons, buildCart, List.filter_cons]
    refine ⟨(ih _).1, ?_⟩
    rw [(ih _).2, bucketsGet_bucketsAppend]
    by_cases h : (bucketKey fields == k) = true
    · have hk : k = bucketKey fields := (beq_iff_eq.mp h).symm
      subst hk
      simp [List.append_assoc]
    · have hk : ¬ k = bucketKey fields := by
        intro he
        simp [he] at h
      simp [h, hk]

/-- C6: a successful cart refresh partitions the fetched flat item list into
per-user buckets exactly by each row bucket key (`str` of its `user_id`):
every bucket holds precisely the rows keyed to it, in input order, and a row
with no `user_id` key is keyed to the sentinel bucket `"0"` rather than
dropped. -/
theorem cart_partition_by_user_id (items : List (List (String × JVal)))
    (st : CartState) (now : ℚ) :
    (load_cart (.ok (.jobj [("items", .jarr (items.map JVal.jobj))])) st now).2 = true
    ∧ (∀ k, bucketsGet
          (load_cart (.ok (.jobj [("items", .jarr (items.map JVal.jobj))]))
            st now).1.cart_items k
        = (items.filter (fun fields => bucketKey fields == k)).map mkCartItem)
    ∧ (∀ fields : List (String × JVal),
        fields.find? (fun kv => kv.1 == "user_id") = none → bucketKey fields = "0") := by
  have hb2 : (buildCart (items.map JVal.jobj) []).2 = true :=
    (buildCart_jobj_get items [] "").1
  have hload : load_cart (.ok (.jobj [("items", .jarr (items.map JVal.jobj))])) st now
      = ({ cart_items := (buildCart (items.map JVal.jobj) []).1,
           last_updated := some now }, true) := by
    simp [load_cart, jGetD, pyDictGetD, List.find?, pyIter, hb2]
  refine ⟨?_, ?_, ?_⟩
  · rw [hload]
  · intro k
    rw [hload]
    have h := (buildCart_jobj_get items [] k).2
    simpa [bucketsGet] using h
  · intro fields hf
    simp [bucketKey, pyDictGetD, hf, pyStr]

/-- Witness for C6: a concrete row without a `user_id` key is keyed to
bucket `"0"`. -/
theorem cart_partition_by_user_id_witness :
    bucketKey [("name", JVal.jstr "b")] = "0" :=
  (cart_partition_by_user_id [] ⟨[], none⟩ 0).2.2 [("name", JVal.jstr "b")] rfl

end AIA
